import Mathlib

/-!
Verification model of the cache-backed artwork fetcher in src/script.js
(also present as src/unnamed/part_000): getPageTotal, getRandomIDs and
fetchArtworksAndCache, the TimeBoxedResourceCache component of the spec.

JavaScript numbers are modelled as rationals (all arithmetic the component
performs — timestamp subtraction, TTL comparison, Math.floor of a product —
is exact on the values involved); NaN is modelled as the `none` of an
`Option`. Asynchronous effects are modelled by an explicit environment
(`World`) holding the cache-slot content, the JSON parser, the clock
readings, the ten Math.random draws and the outcomes of the two remote
requests, and by an explicit result record (`RunResult`) listing the JS
return value, the network requests issued and the cache writes performed.
-/

namespace ArticAscii

/-- JS values as produced by JSON parsing and property access. Numbers are
rationals; `undefined` is included because access to a missing property
yields it. -/
inductive JsValue : Type
  | null
  | undefined
  | bool (b : Bool)
  | num (q : ℚ)
  | str (s : String)
  | arr (elems : List JsValue)
  | obj (fields : List (String × JsValue))

/-- Property access `v.k` as the source uses it: on null or undefined it
throws (modelled as `none`); on an object it yields the field value, or
undefined when the field is absent; on the remaining values the properties
this code reads (timestamp, data, pagination, total) do not exist, so the
access yields undefined. -/
def getProp : JsValue → String → Option JsValue
  | .null, _ => none
  | .undefined, _ => none
  | .obj fields, k => some ((fields.lookup k).getD .undefined)
  | _, _ => some .undefined

/-- JS ToNumber for the operands this code subtracts or multiplies; `none`
is NaN. Primitives are covered exactly (strings: the empty or blank string
is 0, a decimal integer string is its value, other strings are NaN); arrays
and objects, which the code never produces as arithmetic operands, are
modelled as NaN. -/
def toNumber : JsValue → Option ℚ
  | .null => some 0
  | .undefined => none
  | .bool b => some (if b then 1 else 0)
  | .num q => some q
  | .str s => if s.trim = "" then some 0 else (s.trim.toInt?).map (fun n => (n : ℚ))
  | .arr _ => none
  | .obj _ => none

/-- Outcome of one `fetch` call followed by `response.json()`: the request
may fail at the network level (the promise rejects), or resolve with an
`ok` flag and a body; `body = none` means `response.json()` throws
(unparsable body). -/
inductive FetchOutcome : Type
  | networkError
  | response (ok : Bool) (body : Option JsValue)

/-- A network request issued by the component. -/
inductive Request : Type
  | metadata
  | batch (ids : String)

/-- Environment of one fetchArtworksAndCache invocation: the cache slot
content as localStorage.getItem returns it, the JSON parser (abstract;
`none` = JSON.parse throws), the clock reading at the freshness check
(`now0`) and at the cache write (`now1`), the ten Math.random draws, and
the outcomes of the metadata and batch requests. -/
structure World : Type where
  cacheSlot : Option String
  parse : String → Option JsValue
  now0 : ℚ
  randoms : Fin 10 → ℚ
  metaOutcome : FetchOutcome
  batchOutcome : FetchOutcome
  now1 : ℚ

/-- CACHE_DURATION from src/script.js line 4: one hour in milliseconds. -/
def CACHE_DURATION : ℚ := 60 * 60 * 1000

/-- getPageTotal, src/script.js lines 19-39: fetch with limit=0, throw on a
non-ok status, read countData.pagination.total, return null (`none`) when
the total is strictly equal to the number 0 and on any caught error;
otherwise return the total verbatim. -/
def getPageTotal (meta : FetchOutcome) : Option JsValue :=
  match meta with
  | .networkError => none
  | .response ok body =>
    if ok then
      match body with
      | none => none
      | some countData =>
        match getProp countData "pagination" with
        | none => none
        | some pagination =>
          match getProp pagination "total" with
          | none => none
          | some totalArtworks =>
            match totalArtworks with
            | .num q => if q = 0 then none else some (.num q)
            | t => some t
    else none

/-- ToNumber applied to the getPageTotal result: JS null coerces to 0 in
the multiplication `Math.random() * response`. -/
def nullToNumber : Option JsValue → Option ℚ
  | none => some 0
  | some v => toNumber v

/-- One loop iteration of getRandomIDs, src/script.js line 49:
`Math.floor(Math.random() * response) + 1`; NaN propagates. -/
def randomID (r : ℚ) (response : Option JsValue) : Option ℤ :=
  (nullToNumber response).map (fun t => ⌊r * t⌋ + 1)

/-- getRandomIDs, src/script.js lines 45-53: ten draws, each floored
against the getPageTotal result. -/
def getRandomIDs (randoms : Fin 10 → ℚ) (meta : FetchOutcome) : List (Option ℤ) :=
  (List.finRange 10).map (fun i => randomID (randoms i) (getPageTotal meta))

/-- JS number-to-string as Array.prototype.join applies it to each id; the
ids are integer-valued numbers or NaN. -/
def idToString : Option ℤ → String
  | none => "NaN"
  | some n => toString n

/-- The comma-joined id list of src/script.js line 87. -/
def idString (randoms : Fin 10 → ℚ) (meta : FetchOutcome) : String :=
  String.intercalate "," ((getRandomIDs randoms meta).map idToString)

/-- Observable outcome of one fetchArtworksAndCache call: the JS return
value (`JsValue.null` for the error return), the network requests issued in
order, and the cache writes performed, each as the (timestamp, data) pair
of the setItem payload (serialization of the payload to the stored string
is external JSON.stringify). -/
structure RunResult : Type where
  ret : JsValue
  requests : List Request
  cacheWrites : List (ℚ × JsValue)

/-- The network section of fetchArtworksAndCache, src/script.js lines
86-115: generate the ids, issue the batch request, and on success extract
apiResponse.data, write the cache payload and return the data; every throw
inside the try is caught and null is returned with no cache write. The
batch request is always issued, because getRandomIDs never throws. -/
def fetchPath (w : World) : RunResult :=
  let reqs : List Request := [.metadata, .batch (idString w.randoms w.metaOutcome)]
  match w.batchOutcome with
  | .networkError => ⟨.null, reqs, []⟩
  | .response ok body =>
    if ok then
      match body with
      | none => ⟨.null, reqs, []⟩
      | some apiResponse =>
        match getProp apiResponse "data" with
        | none => ⟨.null, reqs, []⟩
        | some artworks => ⟨artworks, reqs, [(w.now1, artworks)]⟩
    else ⟨.null, reqs, []⟩

/-- fetchArtworksAndCache, src/script.js lines 59-116. A falsy slot (absent
or the empty string) falls through to the fetch path; a truthy slot is
parsed inside a try whose catch also falls through to the fetch path; an
entry whose `now0 - timestamp < CACHE_DURATION` comparison holds (false
under NaN) returns its data field with no request and no write; otherwise
the entry is expired and the fetch path runs. -/
def fetchArtworksAndCache (w : World) : RunResult :=
  match w.cacheSlot with
  | none => fetchPath w
  | some cachedData =>
    if cachedData = "" then fetchPath w
    else
      match w.parse cachedData with
      | none => fetchPath w
      | some cache =>
        match getProp cache "timestamp" with
        | none => fetchPath w
        | some tsv =>
          match toNumber tsv with
          | none => fetchPath w
          | some ts =>
            if w.now0 - ts < CACHE_DURATION then
              match getProp cache "data" with
              | none => fetchPath w
              | some d => ⟨d, [], []⟩
            else fetchPath w

/-- A copy of the world with the cache slot absent, used to compare a stale
or corrupt run with the absent-slot run. -/
def withEmptySlot (w : World) : World :=
  ⟨none, w.parse, w.now0, w.randoms, w.metaOutcome, w.batchOutcome, w.now1⟩

/-- A world holding a fresh cache entry with data [7]; both remote requests
would fail, so any network activity would be visible in the result. -/
def freshWorld : World :=
  ⟨some "c", fun _ => some (.obj [("timestamp", .num 0), ("data", .arr [.num 7])]),
    0, fun _ => 0, .networkError, .networkError, 0⟩

/-- A world holding a stale cache entry: the timestamp is one full
CACHE_DURATION in the past. -/
def staleWorld : World :=
  ⟨some "c", fun _ => some (.obj [("timestamp", .num 0), ("data", .arr [.num 7])]),
    60 * 60 * 1000, fun _ => 0, .networkError, .networkError, 60 * 60 * 1000⟩

/-- A world with no cache entry at all. -/
def missWorld : World :=
  ⟨none, fun _ => none, 0, fun _ => 0, .networkError, .networkError, 0⟩

/-- A successful metadata response reporting a total of 5000. -/
def total5000Meta : FetchOutcome :=
  .response true (some (.obj [("pagination", .obj [("total", .num 5000)])]))

/-- A metadata response reporting total = 0, together with a successful
batch response: the failing input for claim C3. -/
def zeroTotalWorld : World :=
  ⟨none, fun _ => none, 0, fun _ => 0,
    .response true (some (.obj [("pagination", .obj [("total", .num 0)])])),
    .response true (some (.obj [("data", .arr [.num 42])])), 0⟩

/-- A failing metadata request (network error), together with a successful
batch response: the failing input for claim C4. -/
def metaDownWorld : World :=
  ⟨none, fun _ => none, 0, fun _ => 0, .networkError,
    .response true (some (.obj [("data", .arr [.num 42])])), 0⟩

/-- A world with no cache entry whose batch request succeeds with data
[3], fetched at clock 0 and written at clock 5. -/
def batchOkWorld : World :=
  ⟨none, fun _ => none, 0, fun _ => 0, .networkError,
    .response true (some (.obj [("data", .arr [.num 3])])), 5⟩

/-- A cache slot holding a fresh entry that has no data field. -/
def noDataWorld : World :=
  ⟨some "c", fun _ => some (.obj [("timestamp", .num 0)]), 0, fun _ => 0,
    .networkError, .networkError, 0⟩

/-- Return values allowed by claim C9, stated from the words of the claim:
a record sequence (array) or the null failure signal. -/
def isSeqOrNull : JsValue → Bool
  | .arr _ => true
  | .null => true
  | _ => false

/-- The fetch path always issues the metadata request and then exactly one
batch request, whatever the batch outcome is. -/
theorem fetchPath_requests (w : World) :
    (fetchPath w).requests = [.metadata, .batch (idString w.randoms w.metaOutcome)] := by
  unfold fetchPath
  rcases w.batchOutcome with _ | ⟨ok, body⟩
  · rfl
  · rcases ok
    · rfl
    · rcases body with _ | apiResponse
      · rfl
      · rcases h : getProp apiResponse "data" with _ | artworks <;> simp [h]

/-- The fetch path never reads the cache slot. -/
theorem fetchPath_withEmptySlot (w : World) :
    fetchPath (withEmptySlot w) = fetchPath w := rfl

/-- An absent slot goes straight to the fetch path. -/
theorem fetchArtworksAndCache_of_emptySlot (w : World) (h : w.cacheSlot = none) :
    fetchArtworksAndCache w = fetchPath w := by
  unfold fetchArtworksAndCache
  rw [h]

/-- A fresh hit: a truthy slot parsing to an entry with a numeric timestamp
satisfying the freshness comparison returns the data field with no request
and no write. -/
theorem fresh_hit_run (w : World) (s : String) (cache tsv d : JsValue) (ts : ℚ)
    (hs : w.cacheSlot = some s) (hne : s ≠ "")
    (hp : w.parse s = some cache)
    (ht : getProp cache "timestamp" = some tsv)
    (hn : toNumber tsv = some ts)
    (hfresh : w.now0 - ts < CACHE_DURATION)
    (hd : getProp cache "data" = some d) :
    fetchArtworksAndCache w = ⟨d, [], []⟩ := by
  simp only [fetchArtworksAndCache, hs, hp, ht, hn, hd, if_neg hne, if_pos hfresh]

/-- C1: for every cache slot whose content parses to an entry whose numeric
timestamp satisfies now0 - ts < CACHE_DURATION, fetchArtworksAndCache
returns the data field of the entry verbatim, issues no network request and
performs no cache write. -/
theorem c1_fresh_cache_hit (w : World) (s : String) (cache tsv d : JsValue) (ts : ℚ)
    (hs : w.cacheSlot = some s) (hne : s ≠ "")
    (hp : w.parse s = some cache)
    (ht : getProp cache "timestamp" = some tsv)
    (hn : toNumber tsv = some ts)
    (hfresh : w.now0 - ts < CACHE_DURATION)
    (hd : getProp cache "data" = some d) :
    fetchArtworksAndCache w = ⟨d, [], []⟩ :=
  fresh_hit_run w s cache tsv d ts hs hne hp ht hn hfresh hd

/-- C1 witness: the fresh-cache world returns the cached data with no
request and no write. -/
theorem c1_fresh_cache_hit_witness :
    fetchArtworksAndCache freshWorld = ⟨.arr [.num 7], [], []⟩ :=
  c1_fresh_cache_hit freshWorld "c"
    (.obj [("timestamp", .num 0), ("data", .arr [.num 7])])
    (.num 0) (.arr [.num 7]) 0 rfl (by decide) rfl rfl rfl
    (by norm_num [freshWorld, CACHE_DURATION]) rfl

/-- C2: a parseable entry whose numeric timestamp is stale
(now0 - ts >= CACHE_DURATION) is ignored: the run is identical to the run
with an absent slot, and the full remote sequence (metadata request, id
generation, batch request) is issued. -/
theorem c2_stale_refetch (w : World) (s : String) (cache tsv : JsValue) (ts : ℚ)
    (hs : w.cacheSlot = some s) (hne : s ≠ "")
    (hp : w.parse s = some cache)
    (ht : getProp cache "timestamp" = some tsv)
    (hn : toNumber tsv = some ts)
    (hstale : CACHE_DURATION ≤ w.now0 - ts) :
    fetchArtworksAndCache w = fetchArtworksAndCache (withEmptySlot w) ∧
      (fetchArtworksAndCache w).requests =
        [.metadata, .batch (idString w.randoms w.metaOutcome)] := by
  have hrun : fetchArtworksAndCache w = fetchPath w := by
    simp only [fetchArtworksAndCache, hs, hp, ht, hn, if_neg hne,
      if_neg (not_lt.mpr hstale)]
  constructor
  · rw [hrun, fetchArtworksAndCache_of_emptySlot (withEmptySlot w) rfl,
      fetchPath_withEmptySlot]
  · rw [hrun, fetchPath_requests]

/-- C2 witness: the stale-cache world behaves exactly like the absent-slot
world and issues both remote requests. -/
theorem c2_stale_refetch_witness :
    fetchArtworksAndCache staleWorld = fetchArtworksAndCache (withEmptySlot staleWorld) ∧
      (fetchArtworksAndCache staleWorld).requests =
        [.metadata, .batch (idString staleWorld.randoms staleWorld.metaOutcome)] :=
  c2_stale_refetch staleWorld "c"
    (.obj [("timestamp", .num 0), ("data", .arr [.num 7])])
    (.num 0) 0 rfl (by decide) rfl rfl rfl
    (by norm_num [staleWorld, CACHE_DURATION])

/-- C5: an absent slot, an empty (falsy) slot, or a slot whose content fails
to parse is treated as a miss: the run is exactly the fetch path, with the
metadata and batch requests issued and no error surfaced for the corruption
itself. -/
theorem c5_miss_or_corrupt (w : World)
    (h : w.cacheSlot = none ∨ w.cacheSlot = some "" ∨
      ∃ s, w.cacheSlot = some s ∧ w.parse s = none) :
    fetchArtworksAndCache w = fetchPath w ∧
      (fetchArtworksAndCache w).requests =
        [.metadata, .batch (idString w.randoms w.metaOutcome)] := by
  have hrun : fetchArtworksAndCache w = fetchPath w := by
    rcases h with h | h | ⟨s, hs, hp⟩
    · simp only [fetchArtworksAndCache, h]
    · simp [fetchArtworksAndCache, h]
    · by_cases hse : s = ""
      · simp only [fetchArtworksAndCache, hs, if_pos hse]
      · simp only [fetchArtworksAndCache, hs, if_neg hse, hp]
  exact ⟨hrun, by rw [hrun, fetchPath_requests]⟩

/-- C5 witness: the absent-slot world runs the fetch path and issues both
requests. -/
theorem c5_miss_or_corrupt_witness :
    fetchArtworksAndCache missWorld = fetchPath missWorld ∧
      (fetchArtworksAndCache missWorld).requests =
        [.metadata, .batch (idString missWorld.randoms missWorld.metaOutcome)] :=
  c5_miss_or_corrupt missWorld (Or.inl rfl)

/-- Multiplying any draw by the null total gives 0, so every generated id
is 1 when getPageTotal reports failure. -/
theorem randomID_of_none (r : ℚ) : randomID r none = some 1 := by
  simp [randomID, nullToNumber]

/-- When getPageTotal yields null, all ten generated ids equal 1. -/
theorem getRandomIDs_of_none (randoms : Fin 10 → ℚ) (meta : FetchOutcome)
    (h : getPageTotal meta = none) :
    getRandomIDs randoms meta = List.replicate 10 (some 1) := by
  unfold getRandomIDs
  rw [h]
  refine List.eq_replicate_iff.mpr ⟨by simp, ?_⟩
  intro b hb
  simp only [List.mem_map, List.mem_finRange, true_and] at hb
  obtain ⟨i, hfi⟩ := hb
  rw [← hfi]
  exact randomID_of_none (randoms i)

/-- When getPageTotal yields null, the comma-joined id list is ten ones. -/
theorem idString_of_none (randoms : Fin 10 → ℚ) (meta : FetchOutcome)
    (h : getPageTotal meta = none) :
    idString randoms meta = "1,1,1,1,1,1,1,1,1,1" := by
  rw [idString, getRandomIDs_of_none randoms meta h]
  rfl

/-- C10: when getPageTotal yields its null failure signal, getRandomIDs
still returns ten ids, every one equal to 1 (null coerces to 0 in the
multiplication), and with a cache miss the run issues the batch request for
ids 1,1,1,1,1,1,1,1,1,1. -/
theorem c10_null_total_batches_ones (w : World)
    (hmiss : w.cacheSlot = none)
    (hnull : getPageTotal w.metaOutcome = none) :
    getRandomIDs w.randoms w.metaOutcome = List.replicate 10 (some 1) ∧
      (fetchArtworksAndCache w).requests =
        [.metadata, .batch "1,1,1,1,1,1,1,1,1,1"] := by
  refine ⟨getRandomIDs_of_none _ _ hnull, ?_⟩
  rw [fetchArtworksAndCache_of_emptySlot w hmiss, fetchPath_requests,
    idString_of_none _ _ hnull]

/-- C10 witness: with no cache entry and a failing metadata request, the
ids are ten ones and the batch request carries them. -/
theorem c10_null_total_batches_ones_witness :
    getRandomIDs missWorld.randoms missWorld.metaOutcome = List.replicate 10 (some 1) ∧
      (fetchArtworksAndCache missWorld).requests =
        [.metadata, .batch "1,1,1,1,1,1,1,1,1,1"] :=
  c10_null_total_batches_ones missWorld rfl rfl

/-- C6: when the metadata step reports a positive integer total n,
getRandomIDs produces exactly ten ids, and for every family of draws in
[0,1) each id is an integer in the inclusive range [1, n]; the draws are
independent inputs, so duplicates are allowed. -/
theorem c6_ids_in_range (randoms : Fin 10 → ℚ) (meta : FetchOutcome) (n : ℤ)
    (hpos : 0 < n)
    (htotal : getPageTotal meta = some (.num (n : ℚ)))
    (hr : ∀ i, 0 ≤ randoms i ∧ randoms i < 1) :
    (getRandomIDs randoms meta).length = 10 ∧
      ∀ x ∈ getRandomIDs randoms meta, ∃ k : ℤ, x = some k ∧ 1 ≤ k ∧ k ≤ n := by
  constructor
  · simp [getRandomIDs]
  · intro x hx
    rw [getRandomIDs, htotal] at hx
    simp only [List.mem_map, List.mem_finRange, true_and] at hx
    obtain ⟨i, hfi⟩ := hx
    refine ⟨⌊randoms i * (n : ℚ)⌋ + 1, ?_, ?_, ?_⟩
    · rw [← hfi]
      simp [randomID, nullToNumber, toNumber]
    · have h0 : (0 : ℚ) ≤ randoms i * (n : ℚ) :=
        mul_nonneg (hr i).1 (by exact_mod_cast hpos.le)
      have := Int.floor_nonneg.mpr h0
      omega
    · have hn : (0 : ℚ) < (n : ℚ) := by exact_mod_cast hpos
      have hlt : randoms i * (n : ℚ) < (n : ℚ) :=
        mul_lt_of_lt_one_left hn (hr i).2
      have := Int.floor_lt.mpr hlt
      omega

/-- C6 witness: with total 5000 and all draws one half, the ten ids lie in
[1, 5000]. -/
theorem c6_ids_in_range_witness :
    (getRandomIDs (fun _ => 1/2) total5000Meta).length = 10 ∧
      ∀ x ∈ getRandomIDs (fun _ => 1/2) total5000Meta,
        ∃ k : ℤ, x = some k ∧ 1 ≤ k ∧ k ≤ 5000 :=
  c6_ids_in_range (fun _ => 1/2) total5000Meta 5000 (by norm_num)
    (by norm_num [total5000Meta, getPageTotal, getProp])
    (fun i => by norm_num)

/-- C3 at its failing input: the metadata step yields the null failure
signal for total = 0, yet the call does not stop: it issues the batch
request for ids 1,1,1,1,1,1,1,1,1,1, and succeeds, returning the batch
data instead of failing with EmptyCollection. -/
theorem c3_zero_total_still_batches :
    getPageTotal zeroTotalWorld.metaOutcome = none ∧
      (fetchArtworksAndCache zeroTotalWorld).requests =
        [.metadata, .batch "1,1,1,1,1,1,1,1,1,1"] ∧
      (fetchArtworksAndCache zeroTotalWorld).ret = .arr [.num 42] := by
  have hnull : getPageTotal zeroTotalWorld.metaOutcome = none := by
    norm_num [zeroTotalWorld, getPageTotal, getProp]
  refine ⟨hnull, ?_, ?_⟩
  · rw [fetchArtworksAndCache_of_emptySlot zeroTotalWorld rfl, fetchPath_requests,
      idString_of_none _ _ hnull]
  · rfl

/-- C4 at its failing input: the metadata request fails at the network
level, yet no transport failure is surfaced: the call issues the batch
request for ids 1,1,1,1,1,1,1,1,1,1 and returns the batch data, not the
null failure signal. -/
theorem c4_meta_failure_still_batches :
    getPageTotal metaDownWorld.metaOutcome = none ∧
      (fetchArtworksAndCache metaDownWorld).requests =
        [.metadata, .batch "1,1,1,1,1,1,1,1,1,1"] ∧
      (fetchArtworksAndCache metaDownWorld).ret = .arr [.num 42] := by
  refine ⟨rfl, ?_, rfl⟩
  rw [fetchArtworksAndCache_of_emptySlot metaDownWorld rfl, fetchPath_requests,
    idString_of_none metaDownWorld.randoms metaDownWorld.metaOutcome rfl]

/-- C7: on the fetch path, a successful batch response whose body carries a
data field produces exactly one cache write, whose payload is the pair of
the write-time clock reading now1 and the fetched data — a full
replacement, not a merge, since the payload does not depend on any prior
entry and the fetch path never reads the slot — and the same data is
returned; under a monotone clock the written timestamp is at least the
time the fetch was initiated. -/
theorem c7_cache_write (w : World) (apiResponse artworks : JsValue)
    (hb : w.batchOutcome = .response true (some apiResponse))
    (hd : getProp apiResponse "data" = some artworks)
    (hclock : w.now0 ≤ w.now1) :
    (fetchPath w).cacheWrites = [(w.now1, artworks)] ∧
      (fetchPath w).ret = artworks ∧
      fetchPath (withEmptySlot w) = fetchPath w ∧
      ∀ p ∈ (fetchPath w).cacheWrites, w.now0 ≤ p.1 := by
  have hrun : fetchPath w =
      ⟨artworks, [.metadata, .batch (idString w.randoms w.metaOutcome)],
        [(w.now1, artworks)]⟩ := by
    simp [fetchPath, hb, hd]
  rw [hrun]
  refine ⟨rfl, rfl, (fetchPath_withEmptySlot w).trans hrun, ?_⟩
  intro p hp
  rw [List.mem_singleton] at hp
  rw [hp]
  exact hclock

/-- C7 witness: the successful batch world writes exactly one payload
(5, [3]) and returns [3]. -/
theorem c7_cache_write_witness :
    (fetchPath batchOkWorld).cacheWrites = [(batchOkWorld.now1, .arr [.num 3])] ∧
      (fetchPath batchOkWorld).ret = .arr [.num 3] ∧
      fetchPath (withEmptySlot batchOkWorld) = fetchPath batchOkWorld ∧
      ∀ p ∈ (fetchPath batchOkWorld).cacheWrites, batchOkWorld.now0 ≤ p.1 :=
  c7_cache_write batchOkWorld (.obj [("data", .arr [.num 3])]) (.arr [.num 3])
    rfl rfl (by norm_num [batchOkWorld])

/-- C8: with a cache miss, a batch request that fails at the network level
or resolves with a non-success status fails the whole call: null is
returned, no cache write happens, and exactly one batch request was
attempted after the metadata request — a single attempt, no retry, no
partial result. -/
theorem c8_batch_failure (w : World)
    (hmiss : w.cacheSlot = none)
    (hb : w.batchOutcome = .networkError ∨
      ∃ body, w.batchOutcome = .response false body) :
    fetchArtworksAndCache w =
      ⟨.null, [.metadata, .batch (idString w.randoms w.metaOutcome)], []⟩ := by
  rw [fetchArtworksAndCache_of_emptySlot w hmiss]
  rcases hb with hb | ⟨body, hb⟩ <;> simp [fetchPath, hb]

/-- C8 witness: the absent-cache world with a network-failing batch request
returns null with no write and a single batch attempt. -/
theorem c8_batch_failure_witness :
    fetchArtworksAndCache missWorld =
      ⟨.null, [.metadata, .batch (idString missWorld.randoms missWorld.metaOutcome)], []⟩ :=
  c8_batch_failure missWorld rfl (Or.inl rfl)

/-- Every run either takes the fetch path or serves a fresh cache hit,
returning the data field of the parsed entry with no request and no
write. -/
theorem run_cases (w : World) :
    fetchArtworksAndCache w = fetchPath w ∨
      ∃ s cache d, w.cacheSlot = some s ∧ w.parse s = some cache ∧
        getProp cache "data" = some d ∧
        fetchArtworksAndCache w = ⟨d, [], []⟩ := by
  rcases hcs : w.cacheSlot with _ | s
  · exact Or.inl (fetchArtworksAndCache_of_emptySlot w hcs)
  · by_cases hse : s = ""
    · left
      simp only [fetchArtworksAndCache, hcs, if_pos hse]
    · rcases hp : w.parse s with _ | cache
      · left
        simp only [fetchArtworksAndCache, hcs, if_neg hse, hp]
      · rcases ht : getProp cache "timestamp" with _ | tsv
        · left
          simp only [fetchArtworksAndCache, hcs, if_neg hse, hp, ht]
        · rcases hn : toNumber tsv with _ | ts
          · left
            simp only [fetchArtworksAndCache, hcs, if_neg hse, hp, ht, hn]
          · by_cases hfresh : w.now0 - ts < CACHE_DURATION
            · rcases hd : getProp cache "data" with _ | d
              · left
                simp only [fetchArtworksAndCache, hcs, if_neg hse, hp, ht, hn,
                  if_pos hfresh, hd]
              · right
                refine ⟨s, cache, d, rfl, hp, hd, ?_⟩
                simp only [fetchArtworksAndCache, hcs, if_neg hse, hp, ht, hn,
                  if_pos hfresh, hd]
            · left
              simp only [fetchArtworksAndCache, hcs, if_neg hse, hp, ht, hn,
                if_neg hfresh]

/-- The fetch path returns null unless the batch response resolved ok with
a body whose data field is the returned value. -/
theorem fetchPath_ret_cases (w : World) :
    (∃ apiResponse, w.batchOutcome = .response true (some apiResponse) ∧
      getProp apiResponse "data" = some (fetchPath w).ret) ∨
    (fetchPath w).ret = .null := by
  unfold fetchPath
  rcases hb : w.batchOutcome with _ | ⟨ok, body⟩
  · exact Or.inr rfl
  · rcases ok
    · exact Or.inr rfl
    · rcases body with _ | apiResponse
      · exact Or.inr rfl
      · rcases hd : getProp apiResponse "data" with _ | artworks
        · exact Or.inr (by simp [hd])
        · exact Or.inl ⟨apiResponse, rfl, by simp [hd]⟩

/-- C9 amended: fetchArtworksAndCache is total over its interface: for
every cache-slot content and every remote outcome it returns, without
propagating any exception, either the data field of the parsed cache entry
(served with no request and no write), or the data field of the successful
batch body, or the null failure signal. The returned data field is
whatever JS value the entry or body holds — not necessarily a record
sequence, and undefined when the field is absent. -/
theorem c9_total_interface (w : World) :
    (∃ s cache, w.cacheSlot = some s ∧ w.parse s = some cache ∧
        getProp cache "data" = some (fetchArtworksAndCache w).ret ∧
        (fetchArtworksAndCache w).requests = [] ∧
        (fetchArtworksAndCache w).cacheWrites = []) ∨
      (∃ apiResponse, w.batchOutcome = .response true (some apiResponse) ∧
        getProp apiResponse "data" = some (fetchArtworksAndCache w).ret) ∨
      (fetchArtworksAndCache w).ret = .null := by
  rcases run_cases w with hrun | ⟨s, cache, d, hcs, hp, hd, hrun⟩
  · rw [hrun]
    rcases fetchPath_ret_cases w with h | h
    · exact Or.inr (Or.inl h)
    · exact Or.inr (Or.inr h)
  · rw [hrun]
    exact Or.inl ⟨s, cache, hcs, hp, hd, rfl, rfl⟩

/-- C9 counterexample: a fresh cache entry lacking a data field makes the
call return undefined, which is neither a record sequence nor the null
failure signal. -/
theorem c9_counterexample :
    (fetchArtworksAndCache noDataWorld).ret = .undefined ∧
      isSeqOrNull (fetchArtworksAndCache noDataWorld).ret = false := by
  have h : fetchArtworksAndCache noDataWorld = ⟨.undefined, [], []⟩ :=
    fresh_hit_run noDataWorld "c" (.obj [("timestamp", .num 0)]) (.num 0) .undefined 0
      rfl (by decide) rfl rfl rfl (by norm_num [noDataWorld, CACHE_DURATION]) rfl
  rw [h]
  exact ⟨rfl, rfl⟩

end ArticAscii
